import Mathlib

/-!
Shallow embedding of the decorator-based HTTP request-handling chain from
`src/structural/decorator.ts` of the design-patterns repository.

Requests, responses and the headers map follow the TypeScript interfaces.
Each handler is embedded as a pure function from a request, the current
wall-clock time (the value `Date.now()` returns during that call) and the
chain's mutable state to a response and an updated state.  The state pools
the private fields of the two stateful decorators (the cache of
`CachingDecorator` and the `requests` table of `RateLimitingDecorator`),
the list of records the `LoggingDecorator` prints, and one invocation
counter per stage so that "stage X's handle was invoked" is observable.
-/

/-- The optional header map of a request (`headers?: \x7bauthorization?, clientId?\x7d`). -/
structure Headers where
  authorization : Option String
  clientId : Option String
deriving DecidableEq

/-- An HTTP request (`HttpRequest` in the source).  The opaque `any` body is
modelled as an optional string. -/
structure HttpRequest where
  method : String
  path : String
  body : Option String := none
  headers : Option Headers := none
deriving DecidableEq

/-- Response bodies produced by the chain: either the base handler's
`\x7bmessage: 'Success', data\x7d` payload or a decorator's `\x7berror\x7d` payload. -/
inductive RespBody where
  | success (data : Option String)
  | error (msg : String)
deriving DecidableEq

/-- An HTTP response (`HttpResponse` in the source). -/
structure HttpResponse where
  status : Nat
  body : RespBody
deriving DecidableEq

/-- One console record of the `LoggingDecorator`: the line printed before
delegating (time, method, path) and the line printed after (status, duration). -/
inductive LogRecord where
  | start (time : Nat) (method path : String)
  | finish (status duration : Nat)
deriving DecidableEq

/-- The pooled mutable state of the assembled chain: the private cache of the
`CachingDecorator`, the private `requests` table of the `RateLimitingDecorator`,
the log records emitted by the `LoggingDecorator`, and an invocation counter
for each stage's `handle`. -/
structure ChainState where
  cache : String → Option (HttpResponse × Nat)
  requests : String → Option (List Nat)
  log : List LogRecord
  validationCalls : Nat
  authCalls : Nat
  rateCalls : Nat
  cacheCalls : Nat
  logCalls : Nat
  baseCalls : Nat

/-- `Map.set`: point update of a string-keyed map. -/
def setMap {α : Type} (m : String → Option α) (k : String) (v : α) :
    String → Option α :=
  fun q => if q = k then some v else m q

/-- The state of a freshly constructed chain: both maps empty, no records. -/
def initState : ChainState :=
  { cache := fun _ => none
    requests := fun _ => none
    log := []
    validationCalls := 0
    authCalls := 0
    rateCalls := 0
    cacheCalls := 0
    logCalls := 0
    baseCalls := 0 }

/-- A handler: request and current time in, response and updated state out. -/
abbrev Handler := HttpRequest → Nat → ChainState → HttpResponse × ChainState

/-- `CachingDecorator.ttl` (one minute, in milliseconds). -/
def ttl : Nat := 60000

/-- `RateLimitingDecorator.windowMs` (one minute, in milliseconds). -/
def windowMs : Nat := 60000

/-- `RateLimitingDecorator.maxRequests`. -/
def maxRequests : Nat := 5

/-- JavaScript truthiness of `request.headers?.authorization`: present and
not the empty string. -/
def authPresent (request : HttpRequest) : Bool :=
  match request.headers with
  | none => false
  | some h =>
    match h.authorization with
    | none => false
    | some a => a != ""

/-- JavaScript truthiness of `request.body` for an optional string body. -/
def bodyTruthy : Option String → Bool
  | none => false
  | some b => b != ""

/-- `request.headers?.clientId || 'anonymous'`: a missing header map, a
missing clientId, or an empty-string clientId all fall back to `anonymous`. -/
def clientKey (request : HttpRequest) : String :=
  match request.headers with
  | none => "anonymous"
  | some h =>
    match h.clientId with
    | none => "anonymous"
    | some c => if c = "" then "anonymous" else c

/-- `cached && Date.now() - cached.timestamp < this.ttl`: whether a cache
lookup yields a fresh entry at time `now`. -/
def cacheFresh (entry : Option (HttpResponse × Nat)) (now : Nat) : Bool :=
  match entry with
  | none => false
  | some e => now - e.2 < ttl

/-- `BasicHttpHandler.handle`: returns 200 with `\x7bmessage: 'Success',
data: request.body\x7d`.  The invocation counter records its console output. -/
def BasicHttpHandler : Handler := fun request _now s =>
  ({ status := 200, body := .success request.body },
   { s with baseCalls := s.baseCalls + 1 })

/-- `LoggingDecorator.handle`: records a start line, delegates, records the
response line, and returns the downstream response unchanged. -/
def LoggingDecorator (handler : Handler) : Handler := fun request now s =>
  let s1 := { s with logCalls := s.logCalls + 1
                     log := s.log ++ [.start now request.method request.path] }
  let p := handler request now s1
  (p.1, { p.2 with log := p.2.log ++ [.finish p.1.status (now - now)] })

/-- `AuthenticationDecorator.handle`: rejects with 401 when the
authorization header is absent (falsy), otherwise delegates. -/
def AuthenticationDecorator (handler : Handler) : Handler := fun request now s =>
  let s1 := { s with authCalls := s.authCalls + 1 }
  if authPresent request then handler request now s1
  else ({ status := 401, body := .error "Unauthorized" }, s1)

/-- `CachingDecorator.handle`: serves a fresh cached entry for the key
`method:path` without delegating; on a miss or a stale entry it delegates
and stores the downstream response with the current timestamp. -/
def CachingDecorator (handler : Handler) : Handler := fun request now s =>
  let s1 := { s with cacheCalls := s.cacheCalls + 1 }
  let cacheKey := request.method ++ ":" ++ request.path
  match s1.cache cacheKey with
  | some cached =>
    if now - cached.2 < ttl then
      (cached.1, s1)
    else
      let p := handler request now s1
      (p.1, { p.2 with cache := setMap p.2.cache cacheKey (p.1, now) })
  | none =>
    let p := handler request now s1
    (p.1, { p.2 with cache := setMap p.2.cache cacheKey (p.1, now) })

/-- `RateLimitingDecorator.handle`: ensures the client has a bucket, filters
the bucket to the trailing window, rejects with 429 when the filtered count
reaches `maxRequests`, otherwise records `now` and delegates. -/
def RateLimitingDecorator (handler : Handler) : Handler := fun request now s =>
  let s1 := { s with rateCalls := s.rateCalls + 1 }
  let clientId := clientKey request
  let requests1 :=
    match s1.requests clientId with
    | none => setMap s1.requests clientId []
    | some _ => s1.requests
  let clientRequests := (requests1 clientId).getD []
  let recentRequests := clientRequests.filter (fun time => now - time < windowMs)
  if maxRequests ≤ recentRequests.length then
    ({ status := 429, body := .error "Too many requests" },
     { s1 with requests := requests1 })
  else
    handler request now
      { s1 with requests := setMap requests1 clientId (recentRequests ++ [now]) }

/-- `ValidationDecorator.handle`: rejects POST requests with a falsy body
with 400, otherwise delegates. -/
def ValidationDecorator (handler : Handler) : Handler := fun request now s =>
  let s1 := { s with validationCalls := s.validationCalls + 1 }
  if request.method == "POST" && !(bodyTruthy request.body) then
    ({ status := 400, body := .error "Request body is required" }, s1)
  else
    handler request now s1

/-- `createApiHandler`: the assembled chain
Validation(Authentication(RateLimit(Cache(Logging(Base))))). -/
def createApiHandler : Handler :=
  ValidationDecorator (AuthenticationDecorator (RateLimitingDecorator
    (CachingDecorator (LoggingDecorator BasicHttpHandler))))

/-- Runs a handler over a sequence of (request, time) pairs, threading the
state, and collects the responses in order. -/
def runSeq (h : Handler) : List (HttpRequest × Nat) → ChainState →
    List HttpResponse × ChainState
  | [], s => ([], s)
  | (r, t) :: rest, s =>
    let p := h r t s
    let q := runSeq h rest p.2
    (p.1 :: q.1, q.2)

/-- The body of `HttpHandlerDecorator`'s constructor: it only stores the
given downstream handler (`this.handler = handler`).  The argument is
optional to model passing `undefined`; the `Except` result makes room for a
signalled configuration error, and the body never produces one. -/
def httpHandlerDecoratorInit (handler : Option Handler) :
    Except String (Option Handler) :=
  Except.ok handler

/-- JavaScript-level delegation through a possibly missing stored handler:
calling `handle` on `undefined` raises a TypeError at call time. -/
def delegateHandle (stored : Option Handler) (request : HttpRequest)
    (now : Nat) (s : ChainState) : Except String (HttpResponse × ChainState) :=
  match stored with
  | none => Except.error "TypeError"
  | some h => Except.ok (h request now s)

/-- The demo's valid request: POST /api/users with a body, an authorization
token and clientId client-1. -/
def reqJohn : HttpRequest :=
  { method := "POST", path := "/api/users", body := some "John"
    headers := some { authorization := some "Bearer token123"
                      clientId := some "client-1" } }

/-- The demo's request 4: POST /api/users with a missing body. -/
def reqNoBody : HttpRequest :=
  { method := "POST", path := "/api/users", body := none
    headers := some { authorization := some "Bearer token123"
                      clientId := some "client-1" } }

/-- The demo's request 3 variant: POST /api/users without authorization. -/
def reqNoAuth : HttpRequest :=
  { method := "POST", path := "/api/users", body := some "John"
    headers := some { authorization := none, clientId := some "client-1" } }

/-- A POST request with neither a body nor any headers. -/
def reqBare : HttpRequest :=
  { method := "POST", path := "/api/users", body := none, headers := none }

/-- A GET request with no headers at all. -/
def reqGetA : HttpRequest :=
  { method := "GET", path := "/a", body := none, headers := none }

/-- A state whose cache holds a fresh entry for GET /a stored at time 0. -/
def sHit : ChainState :=
  { initState with
    cache := setMap initState.cache "GET:/a"
      ({ status := 200, body := .success none }, 0) }

/-- A state whose rate-limit table has five recent anonymous timestamps. -/
def sFull : ChainState :=
  { initState with
    requests := setMap initState.requests "anonymous" [0, 0, 0, 0, 0] }

/-- A state whose rate-limit table holds, for client-1, five timestamps that
are exactly one window old at time 60000. -/
def sBoundary : ChainState :=
  { initState with
    requests := setMap initState.requests "client-1"
      (List.replicate maxRequests 0) }

/-- Six valid demo requests from client-1 at times 0 through 5. -/
def sixValid : List (HttpRequest × Nat) :=
  [(reqJohn, 0), (reqJohn, 1), (reqJohn, 2), (reqJohn, 3), (reqJohn, 4),
   (reqJohn, 5)]

/-- Five valid demo requests followed by a POST with a missing body. -/
def fiveValidThenNoBody : List (HttpRequest × Nat) :=
  [(reqJohn, 0), (reqJohn, 1), (reqJohn, 2), (reqJohn, 3), (reqJohn, 4),
   (reqNoBody, 5)]

/-- Five valid demo requests followed by one without authorization. -/
def fiveValidThenNoAuth : List (HttpRequest × Nat) :=
  [(reqJohn, 0), (reqJohn, 1), (reqJohn, 2), (reqJohn, 3), (reqJohn, 4),
   (reqNoAuth, 5)]

theorem setMap_same {α : Type} (m : String → Option α) (k : String) (v : α) :
    setMap m k v k = some v := by
  simp [setMap]

theorem setMap_ne {α : Type} (m : String → Option α) (k q : String) (v : α)
    (h : q ≠ k) : setMap m k v q = m q := by
  simp [setMap, h]

/- Stage-unfolding lemmas: each rewrites one decorator's `handle` into the
branch its hypotheses select. -/

theorem validation_reject (handler : Handler) (request : HttpRequest)
    (now : Nat) (s : ChainState)
    (h : (request.method == "POST" && !(bodyTruthy request.body)) = true) :
    ValidationDecorator handler request now s
      = ({ status := 400, body := .error "Request body is required" },
         { s with validationCalls := s.validationCalls + 1 }) := by
  simp [ValidationDecorator, h]

theorem validation_pass (handler : Handler) (request : HttpRequest)
    (now : Nat) (s : ChainState)
    (h : (request.method == "POST" && !(bodyTruthy request.body)) = false) :
    ValidationDecorator handler request now s
      = handler request now { s with validationCalls := s.validationCalls + 1 } := by
  simp [ValidationDecorator, h]

theorem auth_reject (handler : Handler) (request : HttpRequest)
    (now : Nat) (s : ChainState) (h : authPresent request = false) :
    AuthenticationDecorator handler request now s
      = ({ status := 401, body := .error "Unauthorized" },
         { s with authCalls := s.authCalls + 1 }) := by
  simp [AuthenticationDecorator, h]

theorem auth_pass (handler : Handler) (request : HttpRequest)
    (now : Nat) (s : ChainState) (h : authPresent request = true) :
    AuthenticationDecorator handler request now s
      = handler request now { s with authCalls := s.authCalls + 1 } := by
  simp [AuthenticationDecorator, h]

theorem cache_hit (handler : Handler) (request : HttpRequest)
    (now : Nat) (s : ChainState) (entry : HttpResponse × Nat)
    (h : s.cache (request.method ++ ":" ++ request.path) = some entry)
    (hfresh : now - entry.2 < ttl) :
    CachingDecorator handler request now s
      = (entry.1, { s with cacheCalls := s.cacheCalls + 1 }) := by
  simp [CachingDecorator, h, hfresh]

theorem cache_miss (handler : Handler) (request : HttpRequest)
    (now : Nat) (s : ChainState)
    (h : cacheFresh (s.cache (request.method ++ ":" ++ request.path)) now = false) :
    CachingDecorator handler request now s
      = (let p := handler request now { s with cacheCalls := s.cacheCalls + 1 }
         (p.1, { p.2 with
           cache := setMap p.2.cache (request.method ++ ":" ++ request.path)
             (p.1, now) })) := by
  cases hc : s.cache (request.method ++ ":" ++ request.path) with
  | none => simp [CachingDecorator, hc]
  | some entry =>
    have hstale : ¬ (now - entry.2 < ttl) := by
      simp [cacheFresh, hc] at h
      omega
    simp [CachingDecorator, hc, hstale]

theorem rate_reject (handler : Handler) (request : HttpRequest)
    (now : Nat) (s : ChainState) (l : List Nat)
    (hl : s.requests (clientKey request) = some l)
    (hlen : maxRequests ≤ (l.filter (fun time => now - time < windowMs)).length) :
    RateLimitingDecorator handler request now s
      = ({ status := 429, body := .error "Too many requests" },
         { s with rateCalls := s.rateCalls + 1 }) := by
  simp [RateLimitingDecorator, hl, hlen]

theorem rate_allow (handler : Handler) (request : HttpRequest)
    (now : Nat) (s : ChainState) (l : List Nat)
    (hl : s.requests (clientKey request) = some l)
    (hlen : (l.filter (fun time => now - time < windowMs)).length < maxRequests) :
    RateLimitingDecorator handler request now s
      = handler request now
          { s with rateCalls := s.rateCalls + 1
                   requests := setMap s.requests (clientKey request)
                     ((l.filter (fun time => now - time < windowMs)) ++ [now]) } := by
  simp [RateLimitingDecorator, hl, Nat.not_le.mpr hlen]

theorem rate_admit_all (handler : Handler) (request : HttpRequest)
    (now : Nat) (s : ChainState) (l : List Nat)
    (hl : s.requests (clientKey request) = some l)
    (hfilter : ∀ t ∈ l, now - t < windowMs)
    (hlen : l.length < maxRequests) :
    RateLimitingDecorator handler request now s
      = handler request now
          { s with rateCalls := s.rateCalls + 1
                   requests := setMap s.requests (clientKey request)
                     (l ++ [now]) } := by
  have hf : l.filter (fun time => now - time < windowMs) = l :=
    List.filter_eq_self.mpr (fun a ha => by simpa using hfilter a ha)
  have := rate_allow handler request now s l hl (by rw [hf]; exact hlen)
  rwa [hf] at this

theorem rate_admit_fresh (handler : Handler) (request : HttpRequest)
    (now : Nat) (s : ChainState)
    (hl : s.requests (clientKey request) = none) :
    RateLimitingDecorator handler request now s
      = handler request now
          { s with rateCalls := s.rateCalls + 1
                   requests := setMap (setMap s.requests (clientKey request) [])
                     (clientKey request) [now] } := by
  simp [RateLimitingDecorator, hl, setMap_same, maxRequests]

theorem logging_base_run (request : HttpRequest) (now : Nat) (s : ChainState) :
    LoggingDecorator BasicHttpHandler request now s
      = ({ status := 200, body := .success request.body },
         { s with logCalls := s.logCalls + 1
                  baseCalls := s.baseCalls + 1
                  log := s.log ++ [.start now request.method request.path,
                                   .finish 200 (now - now)] }) := by
  simp [LoggingDecorator, BasicHttpHandler]

theorem cacheLogBase_requests (request : HttpRequest) (now : Nat) (s : ChainState) :
    ((CachingDecorator (LoggingDecorator BasicHttpHandler)) request now s).2.requests
      = s.requests := by
  unfold CachingDecorator
  cases hc : s.cache (request.method ++ ":" ++ request.path) with
  | none => simp [hc, logging_base_run]
  | some entry =>
    by_cases hf : now - entry.2 < ttl <;> simp [hc, hf, logging_base_run]

/-- Claim C1 fails as stated: the request POST /api/users with no body and no
headers lacks an authorization value, yet the assembled chain answers it with
400 from the outermost Validation stage, not 401. -/
theorem C1_counterexample :
    (createApiHandler reqBare 0 initState).1.status = 400 ∧
    ¬ (createApiHandler reqBare 0 initState).1.status = 401 := by
  decide

/-- Claim C1 (amended): for every request that lacks an authorization value
and passes validation (it is not a POST with a falsy body), the assembled
chain Validation(Authentication(RateLimit(Cache(Logging(Base))))) returns 401
and no stage downstream of Authentication observes the request: the final
state differs from the initial one only in the validation and authentication
invocation counters, so the rate-limit table, the cache, the log and the
remaining counters are untouched. -/
theorem C1_auth_short_circuit (request : HttpRequest) (now : Nat)
    (s : ChainState) (hauth : authPresent request = false)
    (hval : (request.method == "POST" && !(bodyTruthy request.body)) = false) :
    createApiHandler request now s
      = ({ status := 401, body := .error "Unauthorized" },
         { s with validationCalls := s.validationCalls + 1
                  authCalls := s.authCalls + 1 }) := by
  unfold createApiHandler
  rw [validation_pass _ request now s hval, auth_reject _ request now _ hauth]

/-- Witness for C1: the demo's request without authorization but with a valid
body is answered 401, with only the validation and authentication counters
advanced. -/
theorem C1_witness :
    authPresent reqNoAuth = false ∧
    (reqNoAuth.method == "POST" && !(bodyTruthy reqNoAuth.body)) = false ∧
    createApiHandler reqNoAuth 0 initState
      = ({ status := 401, body := .error "Unauthorized" },
         { initState with validationCalls := 1, authCalls := 1 }) :=
  ⟨by decide, by decide,
   C1_auth_short_circuit reqNoAuth 0 initState (by decide) (by decide)⟩

/-- Claim C2: every POST request with a missing body is answered 400 by the
outermost Validation stage; the final state differs from the initial one only
in the validation counter, so the base handler (and every other downstream
stage) is never invoked. -/
theorem C2_validation_short_circuit (request : HttpRequest) (now : Nat)
    (s : ChainState) (hm : request.method = "POST") (hb : request.body = none) :
    createApiHandler request now s
      = ({ status := 400, body := .error "Request body is required" },
         { s with validationCalls := s.validationCalls + 1 }) := by
  have h : (request.method == "POST" && !(bodyTruthy request.body)) = true := by
    simp [hm, hb, bodyTruthy]
  unfold createApiHandler
  rw [validation_reject _ request now s h]

/-- Witness for C2: the demo's request 4 (POST /api/users without a body) is
answered 400 and only the validation counter advances. -/
theorem C2_witness :
    reqNoBody.method = "POST" ∧ reqNoBody.body = none ∧
    createApiHandler reqNoBody 0 initState
      = ({ status := 400, body := .error "Request body is required" },
         { initState with validationCalls := 1 }) :=
  ⟨rfl, rfl, C2_validation_short_circuit reqNoBody 0 initState rfl rfl⟩

/-- Claim C6 fails as stated: after five valid requests from client-1 fill
the window, a sixth request that is itself invalid (a POST with a missing
body) is answered 400 by the Validation stage, not 429 — so the sixth
response is not 429 regardless of its validity. -/
theorem C6_counterexample :
    ((runSeq createApiHandler fiveValidThenNoBody initState).1.map
        (fun r => r.status) = [200, 200, 200, 200, 200, 400]) ∧
    ¬ (((runSeq createApiHandler fiveValidThenNoBody initState).1.map
        (fun r => r.status)).getD 5 0 = 429) := by
  decide

/-- Claim C6 (amended): for six rapid requests from client-1, the first five
valid ones succeed with 200; a sixth that also passes validation and
authentication is rejected 429 by the rate limiter, while a sixth missing its
body or its authorization header is rejected 400 or 401 by the earlier stages
and never reaches the rate limiter (its rate counter stays at five). -/
theorem C6_six_requests :
    ((runSeq createApiHandler sixValid initState).1.map (fun r => r.status)
      = [200, 200, 200, 200, 200, 429]) ∧
    ((runSeq createApiHandler fiveValidThenNoBody initState).1.map
        (fun r => r.status) = [200, 200, 200, 200, 200, 400]) ∧
    (runSeq createApiHandler fiveValidThenNoBody initState).2.rateCalls = 5 ∧
    ((runSeq createApiHandler fiveValidThenNoAuth initState).1.map
        (fun r => r.status) = [200, 200, 200, 200, 200, 401]) ∧
    (runSeq createApiHandler fiveValidThenNoAuth initState).2.rateCalls = 5 := by
  decide

/-- Claim C9 fails as stated: the decorator constructor contains no check, so
constructing a stage without a downstream handler does not fail at
construction time — the constructor succeeds, and the misconfiguration only
surfaces as a TypeError when handle is first invoked. -/
theorem C9_counterexample :
    httpHandlerDecoratorInit none = Except.ok none ∧
    delegateHandle none reqGetA 0 initState = Except.error "TypeError" :=
  ⟨rfl, rfl⟩

/-- Claim C9 (amended): the constructor never signals — it stores whatever
downstream reference it is given, a missing one included (absence is only
prevented statically by the parameter's type) — and in steady state a
properly wired chain never throws: every call returns a normal response
value, every rejection included. -/
theorem C9_construction_no_check (stored : Option Handler)
    (request : HttpRequest) (now : Nat) (s : ChainState) :
    httpHandlerDecoratorInit stored = Except.ok stored ∧
    delegateHandle (some createApiHandler) request now s
      = Except.ok (createApiHandler request now s) :=
  ⟨rfl, rfl⟩

/-- Claim C10: a request with no header map, a missing clientId, or an
empty-string clientId is bucketed under the shared key anonymous; when the
shared anonymous bucket already holds maxRequests timestamps inside the
window, any such request is rejected 429 by the rate-limiting stage,
whatever its origin. -/
theorem C10_anonymous_bucket (request : HttpRequest)
    (hanon : request.headers = none ∨
      ∃ hd, request.headers = some hd ∧
        (hd.clientId = none ∨ hd.clientId = some "")) :
    clientKey request = "anonymous" ∧
    ∀ (inner : Handler) (now : Nat) (s : ChainState) (l : List Nat),
      s.requests "anonymous" = some l →
      maxRequests ≤ (l.filter (fun time => now - time < windowMs)).length →
      (RateLimitingDecorator inner request now s).1
        = { status := 429, body := .error "Too many requests" } := by
  have hkey : clientKey request = "anonymous" := by
    rcases hanon with h | ⟨hd, hhd, hcid⟩
    · simp [clientKey, h]
    · rcases hcid with h2 | h2 <;> simp [clientKey, hhd, h2]
  refine ⟨hkey, ?_⟩
  intro inner now s l hl hlen
  rw [rate_reject inner request now s l (by rw [hkey]; exact hl) hlen]

/-- Witness for C10: a header-less GET request hits the full anonymous bucket
and is rejected 429. -/
theorem C10_witness :
    clientKey reqGetA = "anonymous" ∧
    sFull.requests "anonymous" = some [0, 0, 0, 0, 0] ∧
    (RateLimitingDecorator BasicHttpHandler reqGetA 0 sFull).1
      = { status := 429, body := .error "Too many requests" } := by
  have h := C10_anonymous_bucket reqGetA (Or.inl rfl)
  exact ⟨h.1, rfl, h.2 BasicHttpHandler 0 sFull [0, 0, 0, 0, 0] rfl (by decide)⟩

/-- Claim C4: on the caching stage wrapping its real downstream
Logging(Base): a first request on an uncached key invokes the base handler
and stores the response under method:path with the creation time t1; a
second identical request within the TTL returns the byte-identical response
without invoking the base handler and leaves the entry untouched; once the
TTL has elapsed since the entry was stored, a third identical request
invokes the base handler again and refreshes the entry with its own
timestamp. -/
theorem C4_cache_ttl (request : HttpRequest) (t1 t2 t3 : Nat) (s0 : ChainState)
    (hmiss : s0.cache (request.method ++ ":" ++ request.path) = none)
    (h12 : t2 - t1 < ttl) (h13 : ttl ≤ t3 - t1) :
    let chain := CachingDecorator (LoggingDecorator BasicHttpHandler)
    let key := request.method ++ ":" ++ request.path
    let p1 := chain request t1 s0
    let p2 := chain request t2 p1.2
    let p3 := chain request t3 p2.2
    p1.2.baseCalls = s0.baseCalls + 1 ∧
    p1.2.cache key = some (p1.1, t1) ∧
    p2.1 = p1.1 ∧
    p2.2.baseCalls = p1.2.baseCalls ∧
    p2.2.cache key = some (p1.1, t1) ∧
    p3.2.baseCalls = p2.2.baseCalls + 1 ∧
    p3.1 = p1.1 ∧
    p3.2.cache key = some (p3.1, t3) := by
  have e1 : CachingDecorator (LoggingDecorator BasicHttpHandler) request t1 s0
      = ({ status := 200, body := .success request.body },
         { s0 with
           cache := setMap s0.cache (request.method ++ ":" ++ request.path)
             ({ status := 200, body := .success request.body }, t1)
           log := s0.log ++ [.start t1 request.method request.path,
                             .finish 200 (t1 - t1)]
           cacheCalls := s0.cacheCalls + 1
           logCalls := s0.logCalls + 1
           baseCalls := s0.baseCalls + 1 }) := by
    rw [cache_miss _ request t1 s0 (by simp [cacheFresh, hmiss]),
        logging_base_run]
  simp only [e1]
  have e2 : CachingDecorator (LoggingDecorator BasicHttpHandler) request t2
      ({ s0 with
         cache := setMap s0.cache (request.method ++ ":" ++ request.path)
           ({ status := 200, body := .success request.body }, t1)
         log := s0.log ++ [.start t1 request.method request.path,
                           .finish 200 (t1 - t1)]
         cacheCalls := s0.cacheCalls + 1
         logCalls := s0.logCalls + 1
         baseCalls := s0.baseCalls + 1 })
      = ({ status := 200, body := .success request.body },
         { s0 with
           cache := setMap s0.cache (request.method ++ ":" ++ request.path)
             ({ status := 200, body := .success request.body }, t1)
           log := s0.log ++ [.start t1 request.method request.path,
                             .finish 200 (t1 - t1)]
           cacheCalls := s0.cacheCalls + 1 + 1
           logCalls := s0.logCalls + 1
           baseCalls := s0.baseCalls + 1 }) := by
    rw [cache_hit _ request t2 _
      ({ status := 200, body := .success request.body }, t1)
      (setMap_same _ _ _) h12]
  simp only [e2]
  have e3 : CachingDecorator (LoggingDecorator BasicHttpHandler) request t3
      ({ s0 with
         cache := setMap s0.cache (request.method ++ ":" ++ request.path)
           ({ status := 200, body := .success request.body }, t1)
         log := s0.log ++ [.start t1 request.method request.path,
                           .finish 200 (t1 - t1)]
         cacheCalls := s0.cacheCalls + 1 + 1
         logCalls := s0.logCalls + 1
         baseCalls := s0.baseCalls + 1 })
      = ({ status := 200, body := .success request.body },
         { s0 with
           cache := setMap
             (setMap s0.cache (request.method ++ ":" ++ request.path)
               ({ status := 200, body := .success request.body }, t1))
             (request.method ++ ":" ++ request.path)
             ({ status := 200, body := .success request.body }, t3)
           log := (s0.log ++ [.start t1 request.method request.path,
                              .finish 200 (t1 - t1)])
               ++ [.start t3 request.method request.path,
                   .finish 200 (t3 - t3)]
           cacheCalls := s0.cacheCalls + 1 + 1 + 1
           logCalls := s0.logCalls + 1 + 1
           baseCalls := s0.baseCalls + 1 + 1 }) := by
    rw [cache_miss _ request t3 _
        (by simp [cacheFresh, setMap_same]; omega),
        logging_base_run]
  simp only [e3]
  simp [setMap_same]

/-- Witness for C4: a GET /a request at times 0, 1 and 60000 against a fresh
chain exercises the store, the hit and the expiry-refresh paths. -/
theorem C4_witness :
    (let chain := CachingDecorator (LoggingDecorator BasicHttpHandler)
     let key := reqGetA.method ++ ":" ++ reqGetA.path
     let p1 := chain reqGetA 0 initState
     let p2 := chain reqGetA 1 p1.2
     let p3 := chain reqGetA 60000 p2.2
     p1.2.baseCalls = initState.baseCalls + 1 ∧
     p1.2.cache key = some (p1.1, 0) ∧
     p2.1 = p1.1 ∧
     p2.2.baseCalls = p1.2.baseCalls ∧
     p2.2.cache key = some (p1.1, 0) ∧
     p3.2.baseCalls = p2.2.baseCalls + 1 ∧
     p3.1 = p1.1 ∧
     p3.2.cache key = some (p3.1, 60000)) :=
  C4_cache_ttl reqGetA 0 1 60000 initState rfl (by decide) (by decide)

/-- Claim C5: every request that passes validation, carries an authorization
value, is under the rate limit for its client and misses the cache is
answered 200 by the base handler with a body echoing the request body, the
base handler is invoked exactly once, and the response is stored in the
cache under method:path with the current time. -/
theorem C5_success_path (request : HttpRequest) (now : Nat) (s : ChainState)
    (hval : (request.method == "POST" && !(bodyTruthy request.body)) = false)
    (hauth : authPresent request = true)
    (hrate : (((s.requests (clientKey request)).getD []).filter
        (fun time => now - time < windowMs)).length < maxRequests)
    (hmiss : cacheFresh (s.cache (request.method ++ ":" ++ request.path)) now
        = false) :
    (createApiHandler request now s).1
      = { status := 200, body := .success request.body } ∧
    (createApiHandler request now s).2.baseCalls = s.baseCalls + 1 ∧
    (createApiHandler request now s).2.cache
        (request.method ++ ":" ++ request.path)
      = some ({ status := 200, body := .success request.body }, now) := by
  unfold createApiHandler
  rw [validation_pass _ request now s hval, auth_pass _ request now _ hauth]
  cases hr : s.requests (clientKey request) with
  | none =>
    rw [rate_admit_fresh]
    · rw [cache_miss]
      · rw [logging_base_run]
        refine ⟨rfl, rfl, ?_⟩
        simp [setMap_same]
      · exact hmiss
    · exact hr
  | some l =>
    have hlen : (l.filter (fun time => now - time < windowMs)).length
        < maxRequests := by
      rw [hr] at hrate
      simpa using hrate
    rw [rate_allow (CachingDecorator (LoggingDecorator BasicHttpHandler))
        request now _ l]
    · rw [cache_miss]
      · rw [logging_base_run]
        refine ⟨rfl, rfl, ?_⟩
        simp [setMap_same]
      · exact hmiss
    · exact hr
    · exact hlen

/-- Witness for C5: the demo's valid POST /api/users from client-1 against a
fresh chain yields 200 with the echoed body, one base-handler invocation,
and a cache entry under POST:/api/users. -/
theorem C5_witness :
    (reqJohn.method == "POST" && !(bodyTruthy reqJohn.body)) = false ∧
    authPresent reqJohn = true ∧
    (createApiHandler reqJohn 0 initState).1
      = { status := 200, body := .success (some "John") } ∧
    (createApiHandler reqJohn 0 initState).2.baseCalls = 1 ∧
    (createApiHandler reqJohn 0 initState).2.cache "POST:/api/users"
      = some ({ status := 200, body := .success (some "John") }, 0) := by
  have h := C5_success_path reqJohn 0 initState (by decide) (by decide)
    (by decide) (by decide)
  exact ⟨by decide, by decide, h.1, h.2.1, h.2.2⟩

/-- Claim C7: every call of the logging stage (whose downstream in the chain
is the base handler) appends exactly one start record and one end record
around the delegated call; and when the caching stage answers from a fresh
cache entry, the logging stage downstream of it is skipped entirely, so the
call produces zero log records. -/
theorem C7_logging_records :
    (∀ (request : HttpRequest) (now : Nat) (s : ChainState),
      (LoggingDecorator BasicHttpHandler request now s).2.log
        = s.log ++ [.start now request.method request.path,
                    .finish 200 (now - now)]) ∧
    (∀ (request : HttpRequest) (now : Nat) (s : ChainState),
      cacheFresh (s.cache (request.method ++ ":" ++ request.path)) now = true →
      (CachingDecorator (LoggingDecorator BasicHttpHandler) request now s).2.log
        = s.log) := by
  constructor
  · intro request now s
    rw [logging_base_run]
  · intro request now s hfresh
    cases hc : s.cache (request.method ++ ":" ++ request.path) with
    | none =>
      rw [hc] at hfresh
      simp [cacheFresh] at hfresh
    | some entry =>
      have hf : now - entry.2 < ttl := by
        rw [hc] at hfresh
        simpa [cacheFresh] using hfresh
      rw [cache_hit _ request now s entry hc hf]

/-- Witness for C7: one logged call appends exactly the start/finish pair,
and a cache hit on GET:/a leaves the log empty. -/
theorem C7_witness :
    ((LoggingDecorator BasicHttpHandler reqGetA 5 initState).2.log
      = [LogRecord.start 5 "GET" "/a", LogRecord.finish 200 0]) ∧
    cacheFresh (sHit.cache (reqGetA.method ++ ":" ++ reqGetA.path)) 5 = true ∧
    (CachingDecorator (LoggingDecorator BasicHttpHandler) reqGetA 5 sHit).2.log
      = [] := by
  refine ⟨?_, by decide, ?_⟩
  · exact C7_logging_records.1 reqGetA 5 initState
  · exact C7_logging_records.2 reqGetA 5 sHit (by decide)


/-- Claim C3: for every client identifier and any downstream handler that
leaves the rate-limit table alone (as the chain's real downstream does), six
requests from that client reaching the rate-limiting stage at times inside
one trailing window behave thus: each of the first five is admitted — the
stage delegates downstream with the client's bucket extended by exactly that
request's timestamp — and the sixth is rejected 429 with nothing recorded
and the table unchanged; moreover the window filter is strict: five stored
timestamps exactly windowMs old no longer count, so the next request is
admitted and the bucket is pruned down to just its own timestamp. -/
theorem C3_rate_limit_window :
    (∀ (inner : Handler)
       (_hpres : ∀ (r : HttpRequest) (n : Nat) (σ : ChainState),
         ((inner r n σ).2).requests = σ.requests)
       (cid : String) (r1 r2 r3 r4 r5 r6 : HttpRequest)
       (_hc1 : clientKey r1 = cid) (_hc2 : clientKey r2 = cid)
       (_hc3 : clientKey r3 = cid) (_hc4 : clientKey r4 = cid)
       (_hc5 : clientKey r5 = cid) (_hc6 : clientKey r6 = cid)
       (t1 t2 t3 t4 t5 t6 : Nat)
       (_hord : t1 ≤ t2 ∧ t2 ≤ t3 ∧ t3 ≤ t4 ∧ t4 ≤ t5 ∧ t5 ≤ t6)
       (_hwin : t6 < t1 + windowMs)
       (s0 : ChainState) (_hfresh : s0.requests cid = none)
       (s1 s2 s3 s4 s5 : ChainState),
       (RateLimitingDecorator inner r1 t1 s0).2 = s1 →
       (RateLimitingDecorator inner r2 t2 s1).2 = s2 →
       (RateLimitingDecorator inner r3 t3 s2).2 = s3 →
       (RateLimitingDecorator inner r4 t4 s3).2 = s4 →
       (RateLimitingDecorator inner r5 t5 s4).2 = s5 →
       (∃ σ, RateLimitingDecorator inner r1 t1 s0 = inner r1 t1 σ ∧
         σ.requests cid = some [t1]) ∧
       (∃ σ, RateLimitingDecorator inner r2 t2 s1 = inner r2 t2 σ ∧
         σ.requests cid = some [t1, t2]) ∧
       (∃ σ, RateLimitingDecorator inner r3 t3 s2 = inner r3 t3 σ ∧
         σ.requests cid = some [t1, t2, t3]) ∧
       (∃ σ, RateLimitingDecorator inner r4 t4 s3 = inner r4 t4 σ ∧
         σ.requests cid = some [t1, t2, t3, t4]) ∧
       (∃ σ, RateLimitingDecorator inner r5 t5 s4 = inner r5 t5 σ ∧
         σ.requests cid = some [t1, t2, t3, t4, t5]) ∧
       (RateLimitingDecorator inner r6 t6 s5).1
         = { status := 429, body := .error "Too many requests" } ∧
       (RateLimitingDecorator inner r6 t6 s5).2.requests cid
         = some [t1, t2, t3, t4, t5]) ∧
    (∀ (inner : Handler) (request : HttpRequest) (now : Nat) (s : ChainState),
       windowMs ≤ now →
       s.requests (clientKey request)
         = some (List.replicate maxRequests (now - windowMs)) →
       ∃ σ, RateLimitingDecorator inner request now s = inner request now σ ∧
         σ.requests (clientKey request) = some [now]) := by
  constructor
  · intro inner hpres cid r1 r2 r3 r4 r5 r6 hc1 hc2 hc3 hc4 hc5 hc6
      t1 t2 t3 t4 t5 t6 hord hwin s0 hfresh s1 s2 s3 s4 s5
      hst1 hst2 hst3 hst4 hst5
    obtain ⟨h12, h23, h34, h45, h56⟩ := hord
    have hwin' : t6 < t1 + 60000 := by simpa [windowMs] using hwin
    have e1 : RateLimitingDecorator inner r1 t1 s0
        = inner r1 t1
            { s0 with rateCalls := s0.rateCalls + 1,
                      requests := setMap (setMap s0.requests cid []) cid [t1] }
        := by
      have h := rate_admit_fresh inner r1 t1 s0 (by rw [hc1]; exact hfresh)
      rw [hc1] at h
      exact h
    have hq1 : s1.requests cid = some [t1] := by
      rw [← hst1, e1, hpres]
      simp [setMap_same]
    have e2 : RateLimitingDecorator inner r2 t2 s1
        = inner r2 t2
            { s1 with rateCalls := s1.rateCalls + 1,
                      requests := setMap s1.requests cid ([t1] ++ [t2]) }
        := by
      have h := rate_admit_all inner r2 t2 s1 [t1]
        (by rw [hc2]; exact hq1)
        (by
          intro a ha
          simp at ha
          subst ha
          simp only [windowMs]
          omega)
        (by simp [maxRequests])
      rw [hc2] at h
      exact h
    have hq2 : s2.requests cid = some [t1, t2] := by
      rw [← hst2, e2, hpres]
      simp [setMap_same]
    have e3 : RateLimitingDecorator inner r3 t3 s2
        = inner r3 t3
            { s2 with rateCalls := s2.rateCalls + 1,
                      requests := setMap s2.requests cid ([t1, t2] ++ [t3]) }
        := by
      have h := rate_admit_all inner r3 t3 s2 [t1, t2]
        (by rw [hc3]; exact hq2)
        (by
          intro a ha
          simp at ha
          rcases ha with rfl | rfl <;> (simp only [windowMs]; omega))
        (by simp [maxRequests])
      rw [hc3] at h
      exact h
    have hq3 : s3.requests cid = some [t1, t2, t3] := by
      rw [← hst3, e3, hpres]
      simp [setMap_same]
    have e4 : RateLimitingDecorator inner r4 t4 s3
        = inner r4 t4
            { s3 with rateCalls := s3.rateCalls + 1,
                      requests := setMap s3.requests cid
                        ([t1, t2, t3] ++ [t4]) }
        := by
      have h := rate_admit_all inner r4 t4 s3 [t1, t2, t3]
        (by rw [hc4]; exact hq3)
        (by
          intro a ha
          simp at ha
          rcases ha with rfl | rfl | rfl <;> (simp only [windowMs]; omega))
        (by simp [maxRequests])
      rw [hc4] at h
      exact h
    have hq4 : s4.requests cid = some [t1, t2, t3, t4] := by
      rw [← hst4, e4, hpres]
      simp [setMap_same]
    have e5 : RateLimitingDecorator inner r5 t5 s4
        = inner r5 t5
            { s4 with rateCalls := s4.rateCalls + 1,
                      requests := setMap s4.requests cid
                        ([t1, t2, t3, t4] ++ [t5]) }
        := by
      have h := rate_admit_all inner r5 t5 s4 [t1, t2, t3, t4]
        (by rw [hc5]; exact hq4)
        (by
          intro a ha
          simp at ha
          rcases ha with rfl | rfl | rfl | rfl <;> (simp only [windowMs]; omega))
        (by simp [maxRequests])
      rw [hc5] at h
      exact h
    have hq5 : s5.requests cid = some [t1, t2, t3, t4, t5] := by
      rw [← hst5, e5, hpres]
      simp [setMap_same]
    have hfull6 : ([t1, t2, t3, t4, t5].filter
        (fun time => t6 - time < windowMs)) = [t1, t2, t3, t4, t5] :=
      List.filter_eq_self.mpr (by
        intro a ha
        simp at ha
        rcases ha with rfl | rfl | rfl | rfl | rfl <;>
          (simp only [windowMs]; simp; omega))
    have e6 : RateLimitingDecorator inner r6 t6 s5
        = ({ status := 429, body := .error "Too many requests" },
           { s5 with rateCalls := s5.rateCalls + 1 }) := by
      apply rate_reject inner r6 t6 s5 [t1, t2, t3, t4, t5]
        (by rw [hc6]; exact hq5)
      rw [hfull6]
      simp [maxRequests]
    refine ⟨⟨_, e1, by simp [setMap_same]⟩, ⟨_, e2, by simp [setMap_same]⟩,
      ⟨_, e3, by simp [setMap_same]⟩, ⟨_, e4, by simp [setMap_same]⟩,
      ⟨_, e5, by simp [setMap_same]⟩, by rw [e6], by rw [e6]; exact hq5⟩
  · intro inner request now s hnow hl
    have hx : ¬ (now - (now - windowMs) < windowMs) := by
      simp only [windowMs] at hnow ⊢
      omega
    have hfilterB : (List.replicate maxRequests (now - windowMs)).filter
        (fun time => now - time < windowMs) = [] := by
      simp [maxRequests, List.replicate_succ, hx]
    have e : RateLimitingDecorator inner request now s
        = inner request now
            { s with rateCalls := s.rateCalls + 1,
                     requests := setMap s.requests (clientKey request) [now] }
        := by
      have h := rate_allow inner request now s
        (List.replicate maxRequests (now - windowMs)) hl
        (by rw [hfilterB]; simp [maxRequests])
      rw [hfilterB] at h
      exact h
    exact ⟨_, e, by simp [setMap_same]⟩

/-- Witness for C3: six valid demo requests from client-1 at times 0 through
5 against the real downstream Cache(Logging(Base)) — five admissions with
the bucket growing one stamp at a time, then a 429; and with five stamps
exactly one window old at time 60000 the next request is admitted and the
bucket pruned to just 60000. -/
theorem C3_witness :
    (let inner := CachingDecorator (LoggingDecorator BasicHttpHandler)
     let R := RateLimitingDecorator inner
     let s1 := (R reqJohn 0 initState).2
     let s2 := (R reqJohn 1 s1).2
     let s3 := (R reqJohn 2 s2).2
     let s4 := (R reqJohn 3 s3).2
     let s5 := (R reqJohn 4 s4).2
     (∃ σ, R reqJohn 0 initState = inner reqJohn 0 σ ∧
       σ.requests "client-1" = some [0]) ∧
     (∃ σ, R reqJohn 1 s1 = inner reqJohn 1 σ ∧
       σ.requests "client-1" = some [0, 1]) ∧
     (∃ σ, R reqJohn 2 s2 = inner reqJohn 2 σ ∧
       σ.requests "client-1" = some [0, 1, 2]) ∧
     (∃ σ, R reqJohn 3 s3 = inner reqJohn 3 σ ∧
       σ.requests "client-1" = some [0, 1, 2, 3]) ∧
     (∃ σ, R reqJohn 4 s4 = inner reqJohn 4 σ ∧
       σ.requests "client-1" = some [0, 1, 2, 3, 4]) ∧
     (R reqJohn 5 s5).1
       = { status := 429, body := .error "Too many requests" } ∧
     (R reqJohn 5 s5).2.requests "client-1" = some [0, 1, 2, 3, 4]) ∧
    (∃ σ, RateLimitingDecorator BasicHttpHandler reqJohn 60000 sBoundary
        = BasicHttpHandler reqJohn 60000 σ ∧
      σ.requests (clientKey reqJohn) = some [60000]) := by
  constructor
  · exact C3_rate_limit_window.1
      (CachingDecorator (LoggingDecorator BasicHttpHandler))
      cacheLogBase_requests "client-1"
      reqJohn reqJohn reqJohn reqJohn reqJohn reqJohn
      (by decide) (by decide) (by decide) (by decide) (by decide) (by decide)
      0 1 2 3 4 5 (by decide) (by decide) initState rfl
      _ _ _ _ _ rfl rfl rfl rfl rfl
  · exact C3_rate_limit_window.2 BasicHttpHandler reqJohn 60000 sBoundary
      (by decide) (by decide)

/-- Claim C8: for every request, the assembled chain resolves into exactly
one of five mutually exclusive cases, and in each one every stage either
short-circuits or delegates to its one immediate downstream neighbour
exactly once — witnessed by the invocation counters advancing by exactly one
for every reached stage and staying put for every skipped one — and a stage
that rejects (400, 401 or 429) does not delegate, so no downstream stage's
counter advances and neither the cache, the rate-limit table nor the log is
modified by a rejected request. -/
theorem C8_stage_discipline (request : HttpRequest) (now : Nat)
    (s : ChainState) :
    ((request.method == "POST" && !(bodyTruthy request.body)) = true →
      createApiHandler request now s
        = ({ status := 400, body := .error "Request body is required" },
           { s with validationCalls := s.validationCalls + 1 })) ∧
    ((request.method == "POST" && !(bodyTruthy request.body)) = false →
      authPresent request = false →
      createApiHandler request now s
        = ({ status := 401, body := .error "Unauthorized" },
           { s with validationCalls := s.validationCalls + 1,
                    authCalls := s.authCalls + 1 })) ∧
    ((request.method == "POST" && !(bodyTruthy request.body)) = false →
      authPresent request = true →
      ∀ l, s.requests (clientKey request) = some l →
      maxRequests ≤ (l.filter (fun time => now - time < windowMs)).length →
      createApiHandler request now s
        = ({ status := 429, body := .error "Too many requests" },
           { s with validationCalls := s.validationCalls + 1,
                    authCalls := s.authCalls + 1,
                    rateCalls := s.rateCalls + 1 })) ∧
    ((request.method == "POST" && !(bodyTruthy request.body)) = false →
      authPresent request = true →
      (((s.requests (clientKey request)).getD []).filter
          (fun time => now - time < windowMs)).length < maxRequests →
      ∀ entry, s.cache (request.method ++ ":" ++ request.path) = some entry →
      now - entry.2 < ttl →
      (createApiHandler request now s).1 = entry.1 ∧
      (createApiHandler request now s).2.validationCalls
        = s.validationCalls + 1 ∧
      (createApiHandler request now s).2.authCalls = s.authCalls + 1 ∧
      (createApiHandler request now s).2.rateCalls = s.rateCalls + 1 ∧
      (createApiHandler request now s).2.cacheCalls = s.cacheCalls + 1 ∧
      (createApiHandler request now s).2.logCalls = s.logCalls ∧
      (createApiHandler request now s).2.baseCalls = s.baseCalls ∧
      (createApiHandler request now s).2.log = s.log ∧
      (createApiHandler request now s).2.cache = s.cache ∧
      (createApiHandler request now s).2.requests (clientKey request)
        = some ((((s.requests (clientKey request)).getD []).filter
            (fun time => now - time < windowMs)) ++ [now])) ∧
    ((request.method == "POST" && !(bodyTruthy request.body)) = false →
      authPresent request = true →
      (((s.requests (clientKey request)).getD []).filter
          (fun time => now - time < windowMs)).length < maxRequests →
      cacheFresh (s.cache (request.method ++ ":" ++ request.path)) now
        = false →
      (createApiHandler request now s).1
        = { status := 200, body := .success request.body } ∧
      (createApiHandler request now s).2.validationCalls
        = s.validationCalls + 1 ∧
      (createApiHandler request now s).2.authCalls = s.authCalls + 1 ∧
      (createApiHandler request now s).2.rateCalls = s.rateCalls + 1 ∧
      (createApiHandler request now s).2.cacheCalls = s.cacheCalls + 1 ∧
      (createApiHandler request now s).2.logCalls = s.logCalls + 1 ∧
      (createApiHandler request now s).2.baseCalls = s.baseCalls + 1 ∧
      (createApiHandler request now s).2.log
        = s.log ++ [.start now request.method request.path,
                    .finish 200 (now - now)] ∧
      (createApiHandler request now s).2.cache
          (request.method ++ ":" ++ request.path)
        = some ({ status := 200, body := .success request.body }, now) ∧
      (createApiHandler request now s).2.requests (clientKey request)
        = some ((((s.requests (clientKey request)).getD []).filter
            (fun time => now - time < windowMs)) ++ [now])) := by
  refine ⟨?_, ?_, ?_, ?_, ?_⟩
  · intro hval
    unfold createApiHandler
    rw [validation_reject _ request now s hval]
  · intro hval hauth
    unfold createApiHandler
    rw [validation_pass _ request now s hval, auth_reject _ request now _ hauth]
  · intro hval hauth l hl hlen
    unfold createApiHandler
    rw [validation_pass _ request now s hval, auth_pass _ request now _ hauth]
    rw [rate_reject (CachingDecorator (LoggingDecorator BasicHttpHandler))
        request now _ l]
    · exact hl
    · exact hlen
  · intro hval hauth hrate entry hentry hfresh
    unfold createApiHandler
    rw [validation_pass _ request now s hval, auth_pass _ request now _ hauth]
    cases hr : s.requests (clientKey request) with
    | none =>
      rw [rate_admit_fresh]
      · rw [cache_hit _ request now _ entry]
        · refine ⟨rfl, rfl, rfl, rfl, rfl, rfl, rfl, rfl, rfl, ?_⟩
          simp [setMap_same, hr]
        · exact hentry
        · exact hfresh
      · exact hr
    | some l =>
      have hlen : (l.filter (fun time => now - time < windowMs)).length
          < maxRequests := by
        rw [hr] at hrate
        simpa using hrate
      rw [rate_allow (CachingDecorator (LoggingDecorator BasicHttpHandler))
          request now _ l]
      · rw [cache_hit _ request now _ entry]
        · refine ⟨rfl, rfl, rfl, rfl, rfl, rfl, rfl, rfl, rfl, ?_⟩
          simp [setMap_same, hr]
        · exact hentry
        · exact hfresh
      · exact hr
      · exact hlen
  · intro hval hauth hrate hmiss
    unfold createApiHandler
    rw [validation_pass _ request now s hval, auth_pass _ request now _ hauth]
    cases hr : s.requests (clientKey request) with
    | none =>
      rw [rate_admit_fresh]
      · rw [cache_miss]
        · rw [logging_base_run]
          refine ⟨rfl, rfl, rfl, rfl, rfl, rfl, rfl, rfl, ?_, ?_⟩
          · simp [setMap_same]
          · simp [setMap_same, hr]
        · exact hmiss
      · exact hr
    | some l =>
      have hlen : (l.filter (fun time => now - time < windowMs)).length
          < maxRequests := by
        rw [hr] at hrate
        simpa using hrate
      rw [rate_allow (CachingDecorator (LoggingDecorator BasicHttpHandler))
          request now _ l]
      · rw [cache_miss]
        · rw [logging_base_run]
          refine ⟨rfl, rfl, rfl, rfl, rfl, rfl, rfl, rfl, ?_, ?_⟩
          · simp [setMap_same]
          · simp [setMap_same, hr]
        · exact hmiss
      · exact hr
      · exact hlen

/-- Witness for C8: the rejection case — a bare POST without body advances
only the validation counter — and the full-pass case: the demo's valid
request reaches the base handler with every counter advanced exactly once. -/
theorem C8_witness :
    (createApiHandler reqBare 1 initState
      = ({ status := 400, body := .error "Request body is required" },
         { initState with validationCalls := 1 })) ∧
    (createApiHandler reqJohn 0 initState).1
      = { status := 200, body := .success (some "John") } ∧
    (createApiHandler reqJohn 0 initState).2.baseCalls = 1 := by
  have h1 := (C8_stage_discipline reqBare 1 initState).1 (by decide)
  have h5 := (C8_stage_discipline reqJohn 0 initState).2.2.2.2
    (by decide) (by decide) (by decide) (by decide)
  exact ⟨h1, h5.1, h5.2.2.2.2.2.2.1⟩
